import Mathlib

/-!
Verification of the motto.hamahang core against its specification.

The TypeScript sources are shallowly embedded: JavaScript numbers that hold
integral millisecond timestamps, counts and votes are modelled as `Int`;
`Math.floor(a / b)` is `Int.fdiv` (floor division), the JS `%` operator is
`Int.tmod` (truncated remainder, sign of the dividend), `Math.round(a / b)`
is floor `(2a + b) / (2b)` (round half up), and `Math.ceil(a / b)` is
`-((-a).fdiv b)`.  Geographic coordinates are modelled as `ℚ` (the validity
checks in the code compare only against NaN and 0, which `Option ℚ` captures:
`none` models NaN).  Fallible remote calls are modelled by explicit outcome
parameters.
-/

/- ---------------------------------------------------------------------
   Quantizer: src/lib/approximation.ts
--------------------------------------------------------------------- -/

/-- JS `Math.round(a / b)` for an integer `a` and a positive integer `b`:
round half up, i.e. `⌊a/b + 1/2⌋ = ⌊(2a+b)/(2b)⌋`, as floor division. -/
def roundDiv (a b : Int) : Int := (2 * a + b).fdiv (2 * b)

/-- Round half up of the rational `a / b`, written with the mathematical
floor, as the specification words it ("round is round-half-up"). -/
def roundHalfUp (a b : Int) : Int := ⌊(a : ℚ) / (b : ℚ) + 1 / 2⌋

/-- `approximateCount` from src/lib/approximation.ts: bucket a raw device
count into an approximate number. -/
def approximateCount (raw : Int) : Int :=
  if raw ≤ 0 then 0
  else if raw ≤ 10 then 10
  else if raw ≤ 50 then roundDiv raw 10 * 10
  else if raw ≤ 200 then roundDiv raw 25 * 25
  else if raw ≤ 500 then roundDiv raw 50 * 50
  else roundDiv raw 100 * 100

/-- The bucket rule exactly as the specification states it, applied in
order, with round-half-up rounding (spec-side definition used only to
compare against `approximateCount`). -/
def specApproximate (raw : Int) : Int :=
  if raw = 0 then 0
  else if 1 ≤ raw ∧ raw ≤ 10 then 10
  else if 11 ≤ raw ∧ raw ≤ 50 then roundHalfUp raw 10 * 10
  else if 51 ≤ raw ∧ raw ≤ 200 then roundHalfUp raw 25 * 25
  else if 201 ≤ raw ∧ raw ≤ 500 then roundHalfUp raw 50 * 50
  else roundHalfUp raw 100 * 100

lemma floor_intCast_div {a b : Int} (hb : 0 < b) : ⌊(a : ℚ) / (b : ℚ)⌋ = a / b := by
  have hbn : ((b.toNat : ℕ) : ℤ) = b := Int.toNat_of_nonneg hb.le
  have hq : ((b.toNat : ℕ) : ℚ) = (b : ℚ) := by exact_mod_cast congrArg (fun z : ℤ => (z : ℚ)) hbn
  have h := Rat.floor_intCast_div_natCast a b.toNat
  rw [hq, hbn] at h
  exact h

lemma roundHalfUp_eq_roundDiv (a b : Int) (hb : 0 < b) : roundHalfUp a b = roundDiv a b := by
  unfold roundHalfUp roundDiv
  have h2b : (0 : ℤ) < 2 * b := by omega
  have hcast : (a : ℚ) / (b : ℚ) + 1 / 2 = ((2 * a + b : ℤ) : ℚ) / ((2 * b : ℤ) : ℚ) := by
    have hb0 : (b : ℚ) ≠ 0 := by exact_mod_cast hb.ne'
    push_cast
    field_simp
    ring
  rw [hcast, floor_intCast_div h2b, Int.fdiv_eq_ediv _ h2b.le]

/-- C1: for every non-negative integer `raw`, `approximateCount raw` equals
the spec's in-order bucket rule with round-half-up rounding, and the seven
spec test vectors hold: 0↦0, 7↦10, 23↦20, 47↦50, 120↦125, 430↦450, 650↦700. -/
theorem approximateCount_matches_spec :
    (∀ raw : Int, 0 ≤ raw → approximateCount raw = specApproximate raw) ∧
    approximateCount 0 = 0 ∧ approximateCount 7 = 10 ∧ approximateCount 23 = 20 ∧
    approximateCount 47 = 50 ∧ approximateCount 120 = 125 ∧
    approximateCount 430 = 450 ∧ approximateCount 650 = 700 := by
  refine ⟨?_, by decide, by decide, by decide, by decide, by decide, by decide, by decide⟩
  intro raw h
  simp only [approximateCount, specApproximate]
  split_ifs <;>
    first
      | rfl
      | omega
      | (rw [roundHalfUp_eq_roundDiv _ _ (by norm_num)])

/-- Concrete instantiation of `approximateCount_matches_spec` at raw = 23. -/
theorem approximateCount_matches_spec_witness :
    0 ≤ (23 : Int) ∧ approximateCount 23 = specApproximate 23 :=
  ⟨by decide, approximateCount_matches_spec.1 23 (by decide)⟩

lemma roundDiv_mono {a a' : Int} (b : Int) (hb : 0 < b) (h : a ≤ a') :
    roundDiv a b ≤ roundDiv a' b := by
  unfold roundDiv
  rw [Int.fdiv_eq_ediv _ (by omega), Int.fdiv_eq_ediv _ (by omega)]
  exact Int.ediv_le_ediv (by omega) (by omega)

lemma approx_bucket1 {n : Int} (h1 : 0 < n) (h2 : n ≤ 10) : approximateCount n = 10 := by
  unfold approximateCount
  rw [if_neg (by omega), if_pos (by omega)]

lemma approx_bucket2 {n : Int} (h1 : 10 < n) (h2 : n ≤ 50) :
    approximateCount n = roundDiv n 10 * 10 := by
  unfold approximateCount
  rw [if_neg (by omega), if_neg (by omega), if_pos (by omega)]

lemma approx_bucket3 {n : Int} (h1 : 50 < n) (h2 : n ≤ 200) :
    approximateCount n = roundDiv n 25 * 25 := by
  unfold approximateCount
  rw [if_neg (by omega), if_neg (by omega), if_neg (by omega), if_pos (by omega)]

lemma approx_bucket4 {n : Int} (h1 : 200 < n) (h2 : n ≤ 500) :
    approximateCount n = roundDiv n 50 * 50 := by
  unfold approximateCount
  rw [if_neg (by omega), if_neg (by omega), if_neg (by omega), if_neg (by omega),
    if_pos (by omega)]

lemma approx_bucket5 {n : Int} (h1 : 500 < n) :
    approximateCount n = roundDiv n 100 * 100 := by
  unfold approximateCount
  rw [if_neg (by omega), if_neg (by omega), if_neg (by omega), if_neg (by omega),
    if_neg (by omega)]

lemma approx_step (n : Int) (hn : 0 ≤ n) :
    approximateCount n ≤ approximateCount (n + 1) := by
  rcases show n = 0 ∨ (1 ≤ n ∧ n ≤ 9) ∨ n = 10 ∨ (11 ≤ n ∧ n ≤ 49) ∨ n = 50 ∨
      (51 ≤ n ∧ n ≤ 199) ∨ n = 200 ∨ (201 ≤ n ∧ n ≤ 499) ∨ n = 500 ∨ 501 ≤ n
    from by omega with h | h | h | h | h | h | h | h | h | h
  · subst h; decide
  · rw [approx_bucket1 (by omega) (by omega), approx_bucket1 (by omega) (by omega)]
  · subst h; decide
  · rw [approx_bucket2 (by omega) (by omega), approx_bucket2 (by omega) (by omega)]
    exact mul_le_mul_of_nonneg_right (roundDiv_mono 10 (by norm_num) (by omega)) (by norm_num)
  · subst h; decide
  · rw [approx_bucket3 (by omega) (by omega), approx_bucket3 (by omega) (by omega)]
    exact mul_le_mul_of_nonneg_right (roundDiv_mono 25 (by norm_num) (by omega)) (by norm_num)
  · subst h; decide
  · rw [approx_bucket4 (by omega) (by omega), approx_bucket4 (by omega) (by omega)]
    exact mul_le_mul_of_nonneg_right (roundDiv_mono 50 (by norm_num) (by omega)) (by norm_num)
  · subst h; decide
  · rw [approx_bucket5 (by omega), approx_bucket5 (by omega)]
    exact mul_le_mul_of_nonneg_right (roundDiv_mono 100 (by norm_num) (by omega)) (by norm_num)

lemma approx_mono_aux (a : Int) (ha : 0 ≤ a) (k : Nat) :
    approximateCount a ≤ approximateCount (a + k) := by
  induction k with
  | zero => simp
  | succ m ih =>
    have hstep : a + ((m + 1 : Nat) : Int) = (a + (m : Int)) + 1 := by push_cast; ring
    rw [hstep]
    exact le_trans ih (approx_step (a + (m : Int)) (by omega))

/-- C2: `approximateCount` is monotonically non-decreasing on non-negative
integers, and its output is always a multiple of the bucket's granularity
(10 up to 50, 25 on 51..200, 50 on 201..500, 100 above 500). -/
theorem approximateCount_mono_and_granular :
    (∀ a b : Int, 0 ≤ a → a ≤ b → approximateCount a ≤ approximateCount b) ∧
    (∀ raw : Int, 0 ≤ raw →
      (raw ≤ 50 → (10 : Int) ∣ approximateCount raw) ∧
      (51 ≤ raw → raw ≤ 200 → (25 : Int) ∣ approximateCount raw) ∧
      (201 ≤ raw → raw ≤ 500 → (50 : Int) ∣ approximateCount raw) ∧
      (500 < raw → (100 : Int) ∣ approximateCount raw)) := by
  constructor
  · intro a b ha hab
    have hb : b = a + ((b - a).toNat : Int) := by omega
    rw [hb]
    exact approx_mono_aux a ha (b - a).toNat
  · intro raw h0
    refine ⟨fun h50 => ?_, fun h51 h200 => ?_, fun h201 h500 => ?_, fun h500 => ?_⟩
    · rcases show raw = 0 ∨ (0 < raw ∧ raw ≤ 10) ∨ (10 < raw ∧ raw ≤ 50) from by omega
        with h | h | h
      · subst h; decide
      · rw [approx_bucket1 h.1 h.2]
      · rw [approx_bucket2 h.1 h.2]; exact dvd_mul_left 10 _
    · rw [approx_bucket3 (by omega) h200]; exact dvd_mul_left 25 _
    · rw [approx_bucket4 (by omega) h500]; exact dvd_mul_left 50 _
    · rw [approx_bucket5 (by omega)]; exact dvd_mul_left 100 _

/-- Concrete instantiation of `approximateCount_mono_and_granular` at
`a = 47`, `b = 120`. -/
theorem approximateCount_mono_and_granular_witness :
    approximateCount 47 ≤ approximateCount 120 ∧ (25 : Int) ∣ approximateCount 120 :=
  ⟨approximateCount_mono_and_granular.1 47 120 (by decide) (by decide),
   (approximateCount_mono_and_granular.2 120 (by decide)).2.1 (by decide) (by decide)⟩

/- ---------------------------------------------------------------------
   SyncEngine: calculateLocalState / isSlangExpired (src/unnamed/part_012,
   types from src/lib/supabase.ts)
--------------------------------------------------------------------- -/

/-- JS `Math.ceil(a / b)` for an integer `a` and a positive integer `b`,
as negated floor division of the negation. -/
def ceilDiv (a b : Int) : Int := -((-a).fdiv b)

/-- JS `String.prototype.replace` with a plain string pattern: replaces only
the first occurrence. -/
def jsReplaceFirst (s pat rep : String) : String :=
  match s.splitOn pat with
  | [] => s
  | [_] => s
  | p :: rest => p ++ rep ++ String.intercalate pat rest

/-- Timestamp normalization shared by both part_012 functions:
`startedAt.replace(' ', 'T')`, then append `":00"` when the result ends in
`"+00"`. -/
def normalizeTimestamp (s : String) : String :=
  let t := jsReplaceFirst s " " "T"
  if t.endsWith "+00" then t ++ ":00" else t

/-- `Slang` row type from src/lib/supabase.ts. -/
structure Slang where
  id : String
  text : String
  repeat_count : Int
  seconds_per : Int
  order_index : Int
  is_active : Bool
  admin_override : Bool
  vote_score : Int
  created_at : String
  updated_at : String
deriving DecidableEq

/-- `ServerSlangResponse` from part_012.  The `slang` field is `Option`
because `calculateLocalState` guards on `!slang` at runtime; `receivedAt`
is the optional local arrival timestamp. -/
structure ServerSlangResponse where
  slang : Option Slang
  currentRepeat : Int
  secondsRemaining : Int
  totalDuration : Int
  elapsedInSlang : Int
  startedAt : String
  receivedAt : Option Int
deriving DecidableEq

/-- `CurrentSlangState` from part_012. -/
structure CurrentSlangState where
  slang : Slang
  currentRepeat : Int
  secondsRemaining : Int
  totalDuration : Int
  elapsedInSlang : Int
deriving DecidableEq

/-- `calculateLocalState` from part_012.  The host's `new Date(...).getTime()`
is modelled by the explicit `dateParse` parameter (the fallback path when
`receivedAt` is absent or 0; JS treats `receivedAt = 0` as falsy, hence the
inner `if`).  An invalid date would yield NaN in JS, which poisons the
comparison exactly as an arbitrary `dateParse` value below the expiry bound
does, so totality of `dateParse` loses no behaviour relevant here. -/
def calculateLocalState (dateParse : String → Int) (resp : ServerSlangResponse)
    (now : Int) : Option CurrentSlangState :=
  match resp.slang with
  | none => none
  | some slang =>
    let elapsed : Int :=
      match resp.receivedAt with
      | some receivedAt =>
        if receivedAt = 0 then now - dateParse (normalizeTimestamp resp.startedAt)
        else resp.elapsedInSlang + (now - receivedAt)
      | none => now - dateParse (normalizeTimestamp resp.startedAt)
    if resp.totalDuration ≤ elapsed then none
    else
      let secondsPerMs := slang.seconds_per * 1000
      let repeatIndex := elapsed.fdiv secondsPerMs
      let currentRepeat := slang.repeat_count - repeatIndex
      let positionInRepeat := elapsed.tmod secondsPerMs
      let msRemaining := secondsPerMs - positionInRepeat
      let secondsRemaining := ceilDiv msRemaining 1000
      some { slang := slang, currentRepeat := max 1 currentRepeat,
             secondsRemaining := min secondsRemaining slang.seconds_per,
             totalDuration := resp.totalDuration,
             elapsedInSlang := elapsed }

/-- `isSlangExpired` from part_012: recomputes elapsed by the same rule
(the source duplicates the block; so does this embedding) and compares with
`totalDuration`.  It does not inspect `slang`. -/
def isSlangExpired (dateParse : String → Int) (resp : ServerSlangResponse)
    (now : Int) : Bool :=
  let elapsed : Int :=
    match resp.receivedAt with
    | some receivedAt =>
      if receivedAt = 0 then now - dateParse (normalizeTimestamp resp.startedAt)
      else resp.elapsedInSlang + (now - receivedAt)
    | none => now - dateParse (normalizeTimestamp resp.startedAt)
  decide (resp.totalDuration ≤ elapsed)

lemma fdiv_eq_floor {a b : Int} (hb : 0 < b) : a.fdiv b = ⌊(a : ℚ) / (b : ℚ)⌋ := by
  rw [Int.fdiv_eq_ediv _ hb.le, floor_intCast_div hb]

lemma ceilDiv_eq_ceil {a b : Int} (hb : 0 < b) : ceilDiv a b = ⌈(a : ℚ) / (b : ℚ)⌉ := by
  unfold ceilDiv
  have h2 : (-a).fdiv b = ⌊((-a : ℤ) : ℚ) / (b : ℚ)⌋ := fdiv_eq_floor hb
  have h1 : ((-a : ℤ) : ℚ) = -(a : ℚ) := by push_cast; ring
  have h3 := Int.ceil_neg (α := ℚ) (a := -((a : ℚ) / (b : ℚ)))
  rw [neg_neg] at h3
  rw [h2, h1, neg_div, h3]

/-- Concrete slang for the spec's SyncEngine example: repeatCount 3,
secondsPerRepeat 5 (totalDurationMs 15000). -/
def exSlang : Slang :=
  { id := "s1", text := "x", repeat_count := 3, seconds_per := 5, order_index := 0,
    is_active := true, admin_override := false, vote_score := 0,
    created_at := "", updated_at := "" }

/-- The spec's example snapshot: elapsedAtSnapshotMs 0, receivedAtLocalMs
T0 = 1000000. -/
def exResp : ServerSlangResponse :=
  { slang := some exSlang, currentRepeat := 3, secondsRemaining := 5,
    totalDuration := 15000, elapsedInSlang := 0,
    startedAt := "2026-01-01 00:00:00+00", receivedAt := some 1000000 }

/-- A date parser stub for examples whose `receivedAt` branch is taken (its
value is irrelevant there). -/
def zeroParse : String → Int := fun _ => 0

/-- C3: with `receivedAt` present (and truthy), `calculateLocalState` uses
elapsed = elapsedInSlang + (now − receivedAt); it returns none when
elapsed ≥ totalDuration, and otherwise the state with
currentRepeat = max 1 (repeat_count − ⌊elapsed / (seconds_per·1000)⌋) and
secondsRemaining = min seconds_per ⌈(seconds_per·1000 − elapsed % (seconds_per·1000)) / 1000⌉
(JS `%`, i.e. truncated remainder).  The spec's four example evaluations at
T0+500, T0+4600, T0+5100 and T0+15000 are checked concretely. -/
theorem calculateLocalState_spec :
    (∀ (dateParse : String → Int) (resp : ServerSlangResponse) (s : Slang) (r now : Int),
      resp.slang = some s → resp.receivedAt = some r → r ≠ 0 →
      (resp.totalDuration ≤ resp.elapsedInSlang + (now - r) →
        calculateLocalState dateParse resp now = none) ∧
      (resp.elapsedInSlang + (now - r) < resp.totalDuration → 0 < s.seconds_per →
        calculateLocalState dateParse resp now = some {
          slang := s,
          currentRepeat := max 1 (s.repeat_count -
            ⌊((resp.elapsedInSlang + (now - r) : ℤ) : ℚ) / ((s.seconds_per * 1000 : ℤ) : ℚ)⌋),
          secondsRemaining := min s.seconds_per
            ⌈((s.seconds_per * 1000 -
                (resp.elapsedInSlang + (now - r)).tmod (s.seconds_per * 1000) : ℤ) : ℚ) / ((1000 : ℤ) : ℚ)⌉,
          totalDuration := resp.totalDuration,
          elapsedInSlang := resp.elapsedInSlang + (now - r) })) ∧
    calculateLocalState zeroParse exResp 1000500 =
      some { slang := exSlang, currentRepeat := 3, secondsRemaining := 5,
             totalDuration := 15000, elapsedInSlang := 500 } ∧
    calculateLocalState zeroParse exResp 1004600 =
      some { slang := exSlang, currentRepeat := 3, secondsRemaining := 1,
             totalDuration := 15000, elapsedInSlang := 4600 } ∧
    calculateLocalState zeroParse exResp 1005100 =
      some { slang := exSlang, currentRepeat := 2, secondsRemaining := 5,
             totalDuration := 15000, elapsedInSlang := 5100 } ∧
    calculateLocalState zeroParse exResp 1015000 = none := by
  refine ⟨?_, by decide, by decide, by decide, by decide⟩
  intro dateParse resp s r now hs hr hr0
  have hspm : ∀ sp : Int, 0 < sp → (0 : Int) < sp * 1000 := by intro sp h; omega
  constructor
  · intro hexp
    unfold calculateLocalState
    rw [hs]
    simp only [hr, if_neg hr0]
    rw [if_pos hexp]
  · intro hlt hsp
    unfold calculateLocalState
    rw [hs]
    simp only [hr, if_neg hr0]
    rw [if_neg (by omega)]
    rw [fdiv_eq_floor (hspm _ hsp), ceilDiv_eq_ceil (by norm_num)]
    rw [min_comm]

/-- Concrete instantiation of `calculateLocalState_spec` at the expired
example (now = T0 + 15000). -/
theorem calculateLocalState_spec_witness :
    calculateLocalState zeroParse exResp 1015000 = none :=
  (calculateLocalState_spec.1 zeroParse exResp exSlang 1000000 1015000 rfl rfl
    (by decide)).1 (by decide)

/-- A consistent one-repeat snapshot (repeat_count 1, seconds_per 1,
totalDuration 1000, elapsedInSlang 0) received at local time 1000. -/
def c4Slang : Slang :=
  { id := "s2", text := "y", repeat_count := 1, seconds_per := 1, order_index := 0,
    is_active := true, admin_override := false, vote_score := 0,
    created_at := "", updated_at := "" }

def c4Resp : ServerSlangResponse :=
  { slang := some c4Slang, currentRepeat := 1, secondsRemaining := 1,
    totalDuration := 1000, elapsedInSlang := 0, startedAt := "",
    receivedAt := some 1000 }

/-- C4 counterexample: the claim quantifies over every `now`, but at
`now = 0 < receivedAt = 1000` the consistent snapshot `c4Resp` yields
elapsed = −1000, and `calculateLocalState` returns a state with
currentRepeat = 2, outside [1, repeat_count] = [1, 1]. -/
theorem calculateLocalState_bounds_counterexample :
    (calculateLocalState zeroParse c4Resp 0).map (fun st => st.currentRepeat) = some 2 ∧
    c4Resp.totalDuration = c4Slang.repeat_count * c4Slang.seconds_per * 1000 ∧
    c4Resp.elapsedInSlang = 0 ∧ c4Slang.repeat_count = 1 ∧ c4Slang.seconds_per = 1 ∧
    ¬ ((2 : Int) ≤ c4Slang.repeat_count) := by decide

/-- C4 amended: for a snapshot with consistent fields
(totalDuration = repeat_count·seconds_per·1000, elapsedInSlang ≥ 0,
repeat_count ≥ 1, seconds_per ≥ 1), a truthy `receivedAt`, and — as the
counterexample forces — `now ≥ receivedAt`, any non-null result has
currentRepeat ∈ [1, repeat_count] and secondsRemaining ∈ [1, seconds_per]. -/
theorem calculateLocalState_bounds (dateParse : String → Int)
    (resp : ServerSlangResponse) (s : Slang) (r now : Int)
    (hs : resp.slang = some s) (hr : resp.receivedAt = some r) (hr0 : r ≠ 0)
    (hdur : resp.totalDuration = s.repeat_count * s.seconds_per * 1000)
    (hel : 0 ≤ resp.elapsedInSlang) (hrc : 1 ≤ s.repeat_count)
    (hsp : 1 ≤ s.seconds_per) (hnow : r ≤ now) :
    ∀ st, calculateLocalState dateParse resp now = some st →
      1 ≤ st.currentRepeat ∧ st.currentRepeat ≤ s.repeat_count ∧
      1 ≤ st.secondsRemaining ∧ st.secondsRemaining ≤ s.seconds_per := by
  intro st hst
  unfold calculateLocalState at hst
  rw [hs] at hst
  simp only [hr, if_neg hr0] at hst
  by_cases hexp : resp.totalDuration ≤ resp.elapsedInSlang + (now - r)
  · rw [if_pos hexp] at hst
    exact absurd hst (by simp)
  · rw [if_neg hexp] at hst
    have hst' := (Option.some.injEq _ _).mp hst
    subst hst'
    have hE0 : 0 ≤ resp.elapsedInSlang + (now - r) := by omega
    have hspm : (0 : Int) < s.seconds_per * 1000 := by omega
    have hElt : resp.elapsedInSlang + (now - r) < s.repeat_count * (s.seconds_per * 1000) := by
      have : s.repeat_count * (s.seconds_per * 1000) = s.repeat_count * s.seconds_per * 1000 := by
        ring
      omega
    have hidx : (resp.elapsedInSlang + (now - r)).fdiv (s.seconds_per * 1000) =
        (resp.elapsedInSlang + (now - r)) / (s.seconds_per * 1000) :=
      Int.fdiv_eq_ediv _ hspm.le
    have hi0 : 0 ≤ (resp.elapsedInSlang + (now - r)) / (s.seconds_per * 1000) :=
      Int.ediv_nonneg hE0 hspm.le
    have hiu : (resp.elapsedInSlang + (now - r)) / (s.seconds_per * 1000) < s.repeat_count := by
      rw [Int.ediv_lt_iff_lt_mul hspm]
      exact hElt
    have hpos : (resp.elapsedInSlang + (now - r)).tmod (s.seconds_per * 1000) =
        (resp.elapsedInSlang + (now - r)) % (s.seconds_per * 1000) :=
      Int.tmod_eq_emod hE0 hspm.le
    have hp0 : 0 ≤ (resp.elapsedInSlang + (now - r)) % (s.seconds_per * 1000) :=
      Int.emod_nonneg _ hspm.ne'
    have hpl : (resp.elapsedInSlang + (now - r)) % (s.seconds_per * 1000) <
        s.seconds_per * 1000 := Int.emod_lt_of_pos _ hspm
    have hceil1 : 1 ≤ ceilDiv (s.seconds_per * 1000 -
        (resp.elapsedInSlang + (now - r)).tmod (s.seconds_per * 1000)) 1000 := by
      unfold ceilDiv
      have hneg : (-(s.seconds_per * 1000 -
          (resp.elapsedInSlang + (now - r)).tmod (s.seconds_per * 1000))).fdiv 1000 < 0 := by
        rw [Int.fdiv_eq_ediv _ (by norm_num), Int.ediv_lt_iff_lt_mul (by norm_num)]
        omega
      omega
    refine ⟨le_max_left _ _, ?_, ?_, min_le_right _ _⟩
    · simp only [max_le_iff]
      constructor
      · omega
      · omega
    · simp only [le_min_iff]
      exact ⟨hceil1, by omega⟩

/-- Concrete instantiation of `calculateLocalState_bounds` at the example
snapshot and now = T0 + 500. -/
theorem calculateLocalState_bounds_witness :
    1 ≤ (3 : Int) ∧ (3 : Int) ≤ exSlang.repeat_count ∧
    1 ≤ (5 : Int) ∧ (5 : Int) ≤ exSlang.seconds_per := by
  have h := calculateLocalState_bounds zeroParse exResp exSlang 1000000 1000500
    rfl rfl (by decide) (by decide) (by decide) (by decide) (by decide) (by decide)
    { slang := exSlang, currentRepeat := 3, secondsRemaining := 5,
      totalDuration := 15000, elapsedInSlang := 500 } (by decide)
  exact h

/-- C10: whenever the `slang` field is present, `calculateLocalState`
returns null exactly when `isSlangExpired` returns true — both recompute
elapsed by the same rule (receivedAt anchoring with the startedAt wall-clock
fallback), for every date parser, response and `now`. -/
theorem calculateLocalState_none_iff_expired :
    ∀ (dateParse : String → Int) (resp : ServerSlangResponse) (s : Slang) (now : Int),
      resp.slang = some s →
      (calculateLocalState dateParse resp now = none ↔
        isSlangExpired dateParse resp now = true) := by
  intro dateParse resp s now hs
  unfold calculateLocalState isSlangExpired
  rw [hs]
  rcases hra : resp.receivedAt with _ | r <;> simp only [hra] <;> split_ifs <;> simp_all

/-- Concrete instantiation of `calculateLocalState_none_iff_expired` at the
example snapshot and now = T0 + 15000. -/
theorem calculateLocalState_none_iff_expired_witness :
    calculateLocalState zeroParse exResp 1015000 = none ↔
      isSlangExpired zeroParse exResp 1015000 = true :=
  calculateLocalState_none_iff_expired zeroParse exResp exSlang 1015000 rfl

/- ---------------------------------------------------------------------
   VoteAggregator: vote from src/hooks/useSloganVote.ts
--------------------------------------------------------------------- -/

/-- `VoteInfo` from useSloganVote.ts; `userVote` is +1, −1 or null. -/
structure VoteInfo where
  score : Int
  likes : Int
  dislikes : Int
  userVote : Option Int
deriving DecidableEq

/-- Outcome of the `submit_vote` remote call: success, the explicit
`"rate_limited"` rejection, or an RPC error / thrown exception. -/
inductive VoteOutcome where
  | ok
  | rateLimited
  | err
deriving DecidableEq

/-- The four values `vote` captures before the optimistic update
(`current?.score ?? 0` etc.); the rollback writes exactly these. -/
def voteSnapshot (current : Option VoteInfo) : VoteInfo :=
  { score := match current with | some c => c.score | none => 0,
    likes := match current with | some c => c.likes | none => 0,
    dislikes := match current with | some c => c.dislikes | none => 0,
    userVote := match current with | some c => c.userVote | none => none }

/-- The optimistic update of `vote` (useSloganVote.ts lines 88–127):
returns the new tally for the item together with the vote value carried by
the remote call (`isToggle ? 0 : value`). -/
def applyVote (current : Option VoteInfo) (value : Int) : VoteInfo × Int :=
  let currentUserVote := (voteSnapshot current).userVote
  let currentScore := (voteSnapshot current).score
  let currentLikes := (voteSnapshot current).likes
  let currentDislikes := (voteSnapshot current).dislikes
  let isToggle : Bool := decide (currentUserVote = some value)
  let newUserVote : Option Int := if isToggle then none else some value
  let scoreDelta : Int :=
    if isToggle then -value
    else match currentUserVote with
      | some cv => value - cv
      | none => value
  let likesDelta : Int :=
    if isToggle then (if value = 1 then -1 else 0)
    else if value = 1 then 1 else (if currentUserVote = some 1 then -1 else 0)
  let dislikesDelta : Int :=
    if isToggle then (if value = 1 then 0 else -1)
    else if value = 1 then (if currentUserVote = some (-1) then -1 else 0) else 1
  ({ score := currentScore + scoreDelta, likes := currentLikes + likesDelta,
     dislikes := currentDislikes + dislikesDelta, userVote := newUserVote },
   if isToggle then 0 else value)

/-- The tally for the item after the remote call resolves: the optimistic
value on success, the captured snapshot on "rate_limited" or error
(useSloganVote.ts lines 128–153). -/
def voteFinal (current : Option VoteInfo) (value : Int) (outcome : VoteOutcome) : VoteInfo :=
  match outcome with
  | .ok => (applyVote current value).1
  | .rateLimited => voteSnapshot current
  | .err => voteSnapshot current

/-- C5: the optimistic update implements the toggle semantics — same vote
clears it and decrements its bucket, no prior vote sets it and increments
its bucket, opposite vote moves one count across buckets — and the remote
call carries 0 on toggle-off and the direction otherwise; the spec's three
example transitions hold. -/
theorem vote_toggle_semantics :
    (∀ (current : Option VoteInfo) (value : Int), value = 1 ∨ value = -1 →
      ((voteSnapshot current).userVote = some value →
        (applyVote current value).1.userVote = none ∧
        (applyVote current value).1.likes =
          (voteSnapshot current).likes - (if value = 1 then 1 else 0) ∧
        (applyVote current value).1.dislikes =
          (voteSnapshot current).dislikes - (if value = -1 then 1 else 0) ∧
        (applyVote current value).2 = 0) ∧
      ((voteSnapshot current).userVote = none →
        (applyVote current value).1.userVote = some value ∧
        (applyVote current value).1.likes =
          (voteSnapshot current).likes + (if value = 1 then 1 else 0) ∧
        (applyVote current value).1.dislikes =
          (voteSnapshot current).dislikes + (if value = -1 then 1 else 0) ∧
        (applyVote current value).2 = value) ∧
      (∀ cv, (voteSnapshot current).userVote = some cv → cv ≠ value →
        cv = 1 ∨ cv = -1 →
        (applyVote current value).1.userVote = some value ∧
        (applyVote current value).1.likes =
          (voteSnapshot current).likes + (if value = 1 then 1 else -1) ∧
        (applyVote current value).1.dislikes =
          (voteSnapshot current).dislikes + (if value = 1 then -1 else 1) ∧
        (applyVote current value).2 = value)) ∧
    applyVote (some ⟨0, 0, 0, none⟩) 1 = (⟨1, 1, 0, some 1⟩, 1) ∧
    applyVote (some ⟨1, 1, 0, some 1⟩) 1 = (⟨0, 0, 0, none⟩, 0) ∧
    applyVote (some ⟨1, 1, 0, some 1⟩) (-1) = (⟨-1, 0, 1, some (-1)⟩, -1) := by
  refine ⟨?_, by decide, by decide, by decide⟩
  intro current value hv
  refine ⟨?_, ?_, ?_⟩
  · intro h
    simp only [applyVote, h]
    rcases hv with rfl | rfl <;> simp <;> omega
  · intro h
    simp only [applyVote, h]
    rcases hv with rfl | rfl <;> simp
  · intro cv h hne hcv
    simp only [applyVote, h]
    rcases hv with rfl | rfl <;> rcases hcv with rfl | rfl <;> simp_all

/-- Concrete instantiation of `vote_toggle_semantics` (toggle-off branch)
at tally {score 1, likes 1, dislikes 0, userVote +1} and value +1. -/
theorem vote_toggle_semantics_witness :
    (applyVote (some ⟨1, 1, 0, some 1⟩) 1).1.userVote = none ∧
    (applyVote (some ⟨1, 1, 0, some 1⟩) 1).1.likes =
      (voteSnapshot (some ⟨1, 1, 0, some 1⟩)).likes - (if (1 : Int) = 1 then 1 else 0) ∧
    (applyVote (some ⟨1, 1, 0, some 1⟩) 1).1.dislikes =
      (voteSnapshot (some ⟨1, 1, 0, some 1⟩)).dislikes - (if (1 : Int) = -1 then 1 else 0) ∧
    (applyVote (some ⟨1, 1, 0, some 1⟩) 1).2 = 0 :=
  (vote_toggle_semantics.1 (some ⟨1, 1, 0, some 1⟩) 1 (Or.inl rfl)).1 (by decide)

/-- C6: when the remote reconciliation errors or returns "rate_limited",
the final tally for the item is exactly the snapshot captured before the
optimistic update — score, likes, dislikes and userVote all restored, no
partial merge. -/
theorem vote_rollback (current : Option VoteInfo) (value : Int)
    (outcome : VoteOutcome) (h : outcome ≠ VoteOutcome.ok) :
    voteFinal current value outcome = voteSnapshot current := by
  cases outcome with
  | ok => exact absurd rfl h
  | rateLimited => rfl
  | err => rfl

/-- Concrete instantiation of `vote_rollback` at a rate-limited vote. -/
theorem vote_rollback_witness :
    voteFinal (some ⟨2, 3, 1, some 1⟩) (-1) VoteOutcome.rateLimited =
      voteSnapshot (some ⟨2, 3, 1, some 1⟩) :=
  vote_rollback (some ⟨2, 3, 1, some 1⟩) (-1) VoteOutcome.rateLimited (by decide)

/- ---------------------------------------------------------------------
   LocationResolver: ipGeolocate and the adapter parsers (src/unnamed/part_015)
--------------------------------------------------------------------- -/

/-- `IPGeoResult` from part_015. -/
structure IPGeoResult where
  lat : ℚ
  lng : ℚ
  city : Option String
deriving DecidableEq

def CACHE_MAX_AGE_MS : Int := 5 * 60 * 1000

/-- `Promise.any` over the adapter attempts: some fulfilled result wins, and
the race rejects only when every attempt rejects.  Settle order is
abstracted as list order; only none-ness matters for the claims here. -/
def firstSome : List (Option IPGeoResult) → Option IPGeoResult
  | [] => none
  | some r :: _ => some r
  | none :: rest => firstSome rest

/-- `fetchGeo` from part_015: the first-party lookup first, then the raced
external endpoints.  Each network attempt is modelled by its result
(`none` = timeout, non-2xx, or parse failure). -/
def fetchGeo (vercel : Option IPGeoResult)
    (externals : List (Option IPGeoResult)) : Option IPGeoResult :=
  match vercel with
  | some r => some r
  | none => firstSome externals

/-- `ipGeolocate` from part_015: return the cache when fresh, otherwise
fetch.  The in-flight coalescing only shares one `fetchGeo` among
concurrent callers and does not change the returned value, so it is not
modelled; the cache write-back does not affect the returned value either. -/
def ipGeolocate (cachedResult : Option IPGeoResult) (cachedAt now : Int)
    (vercel : Option IPGeoResult)
    (externals : List (Option IPGeoResult)) : Option IPGeoResult :=
  match cachedResult with
  | some r =>
    if now - cachedAt < CACHE_MAX_AGE_MS then some r
    else fetchGeo vercel externals
  | none => fetchGeo vercel externals

def tehran : IPGeoResult := { lat := 35, lng := 51, city := some "Tehran" }

/-- C7 counterexample: a stale cached result (age exactly 5 minutes) is
present, the first-party lookup and all five external attempts fail, and
`ipGeolocate` returns null anyway — the stale value is left for callers. -/
theorem ipGeolocate_null_counterexample :
    ipGeolocate (some tehran) 0 CACHE_MAX_AGE_MS none
      [none, none, none, none, none] = none := by decide

lemma firstSome_eq_none (l : List (Option IPGeoResult)) :
    firstSome l = none ↔ ∀ e ∈ l, e = none := by
  induction l with
  | nil => simp [firstSome]
  | cons h t ih => cases h <;> simp [firstSome, ih]

/-- C7 amended: `ipGeolocate` returns null exactly when the first-party
lookup fails, every third-party attempt fails, and no FRESH cached result
(age < 5 minutes) exists; a fresh cache guarantees a non-null result, but a
stale cache alone does not prevent null (stale reuse is the caller's job,
e.g. ServerCrowdCounter.getCoords). -/
theorem ipGeolocate_null_iff (cachedResult : Option IPGeoResult)
    (cachedAt now : Int) (vercel : Option IPGeoResult)
    (externals : List (Option IPGeoResult)) :
    ipGeolocate cachedResult cachedAt now vercel externals = none ↔
      (vercel = none ∧ (∀ e ∈ externals, e = none) ∧
        ¬ (∃ r, cachedResult = some r ∧ now - cachedAt < CACHE_MAX_AGE_MS)) := by
  cases cachedResult with
  | none =>
    cases vercel with
    | none => simp [ipGeolocate, fetchGeo, firstSome_eq_none]
    | some v => simp [ipGeolocate, fetchGeo]
  | some r =>
    by_cases hfresh : now - cachedAt < CACHE_MAX_AGE_MS
    · simp [ipGeolocate, hfresh]
    · cases vercel with
      | none => simp [ipGeolocate, hfresh, fetchGeo, firstSome_eq_none]
      | some v => simp [ipGeolocate, hfresh, fetchGeo]

/-- JS `d.city || null`: the empty string is falsy and becomes null. -/
def jsOrNull (s : Option String) : Option String :=
  match s with
  | some str => if str = "" then none else some str
  | none => none

def parseDigits? (cs : List Char) : Option Nat :=
  if cs.isEmpty then none
  else if cs.all Char.isDigit then
    some (cs.foldl (fun n c => n * 10 + (c.toNat - 48)) 0)
  else none

/-- Model of JS `Number()` on the strings fed to it by the ipinfo adapter:
the empty string coerces to 0; an optional sign followed by decimal digits
with at most one point.  Exotic coercions (exponent, hex, whitespace) do
not occur in "lat,lng" pairs and are mapped to NaN (`none`). -/
def jsNumber (s : String) : Option ℚ :=
  if s = "" then some 0
  else
    let sg : ℚ := if s.startsWith "-" then -1 else 1
    let t := if s.startsWith "-" || s.startsWith "+" then s.drop 1 else s
    match t.splitOn "." with
    | [ip] => (parseDigits? ip.data).map fun n => sg * n
    | [ip, fp] =>
      if ip = "" && fp = "" then none
      else
        let ipv := if ip = "" then some 0 else parseDigits? ip.data
        let fpv := if fp = "" then some 0 else parseDigits? fp.data
        match ipv, fpv with
        | some n, some f => some (sg * ((n : ℚ) + (f : ℚ) / ((10 : ℚ) ^ fp.length)))
        | _, _ => none
    | _ => none

/-- get.geojs.io adapter parse from part_015's `fallbackEndpoints`:
`Number(d.latitude)` / `Number(d.longitude)` are modelled as the already
coerced `Option ℚ` (`none` = NaN); the check is
`isNaN(lat) || isNaN(lng) || lat === 0`. -/
def geojsParse (latitude longitude : Option ℚ) (city : Option String) :
    Option IPGeoResult :=
  match latitude, longitude with
  | some lat, some lng =>
    if lat = 0 then none else some { lat := lat, lng := lng, city := jsOrNull city }
  | _, _ => none

/-- freeipapi.com adapter parse (same check; city field is `cityName`). -/
def freeipapiParse (latitude longitude : Option ℚ) (cityName : Option String) :
    Option IPGeoResult :=
  match latitude, longitude with
  | some lat, some lng =>
    if lat = 0 then none else some { lat := lat, lng := lng, city := jsOrNull cityName }
  | _, _ => none

/-- ipwhois.app adapter parse (same check). -/
def ipwhoisAppParse (latitude longitude : Option ℚ) (city : Option String) :
    Option IPGeoResult :=
  match latitude, longitude with
  | some lat, some lng =>
    if lat = 0 then none else some { lat := lat, lng := lng, city := jsOrNull city }
  | _, _ => none

/-- ipwho.is adapter parse (same check). -/
def ipwhoIsParse (latitude longitude : Option ℚ) (city : Option String) :
    Option IPGeoResult :=
  match latitude, longitude with
  | some lat, some lng =>
    if lat = 0 then none else some { lat := lat, lng := lng, city := jsOrNull city }
  | _, _ => none

/-- ipinfo.io adapter parse: requires a string `loc` containing a comma,
destructures the first two comma-separated parts, coerces each with
`Number()` (modelled by `jsNumber`), then applies the same
`isNaN(lat) || isNaN(lng) || lat === 0` check. -/
def ipinfoParse (loc : Option String) (city : Option String) : Option IPGeoResult :=
  match loc with
  | some l =>
    if l.contains ',' then
      let parts := l.splitOn ","
      let la := parts.headD ""
      let lo := (parts.drop 1).headD ""
      match jsNumber la, jsNumber lo with
      | some lat, some lng =>
        if lat = 0 then none else some { lat := lat, lng := lng, city := jsOrNull city }
      | _, _ => none
    else none
  | none => none

/-- C8 counterexample: a response with numeric nonzero latitude and a
zero-valued longitude is accepted by the geojs adapter (the code checks
`lat === 0` but never `lng === 0`), contradicting the claim that every
adapter rejects zero-valued coordinates.  All five adapters share the
check. -/
theorem geoParse_zero_longitude_counterexample :
    geojsParse (some 35) (some 0) (some "Tehran") =
      some { lat := 35, lng := 0, city := some "Tehran" } := by decide

/-- C8 amended: each adapter parser returns null exactly when a coordinate
is non-numeric (NaN) or the LATITUDE is zero-valued; a zero-valued
longitude with a valid nonzero latitude is accepted.  For ipinfo the
coordinates are the `Number()` coercions of the first two comma-separated
parts of `loc`, and a `loc` that is absent or has no comma is rejected. -/
theorem geoParse_validity :
    (∀ latitude longitude city, geojsParse latitude longitude city = none ↔
      (latitude = none ∨ longitude = none ∨ latitude = some 0)) ∧
    (∀ latitude longitude cityName, freeipapiParse latitude longitude cityName = none ↔
      (latitude = none ∨ longitude = none ∨ latitude = some 0)) ∧
    (∀ latitude longitude city, ipwhoisAppParse latitude longitude city = none ↔
      (latitude = none ∨ longitude = none ∨ latitude = some 0)) ∧
    (∀ latitude longitude city, ipwhoIsParse latitude longitude city = none ↔
      (latitude = none ∨ longitude = none ∨ latitude = some 0)) ∧
    (∀ city, ipinfoParse none city = none) ∧
    (∀ l city, ipinfoParse (some l) city = none ↔
      (l.contains ',' = false ∨
       jsNumber ((l.splitOn ",").headD "") = none ∨
       jsNumber (((l.splitOn ",").drop 1).headD "") = none ∨
       jsNumber ((l.splitOn ",").headD "") = some 0)) := by
  refine ⟨?_, ?_, ?_, ?_, fun city => rfl, ?_⟩
  · intro la lo city
    rcases la with _ | q <;> rcases lo with _ | p <;> simp [geojsParse]
  · intro la lo cityName
    rcases la with _ | q <;> rcases lo with _ | p <;> simp [freeipapiParse]
  · intro la lo city
    rcases la with _ | q <;> rcases lo with _ | p <;> simp [ipwhoisAppParse]
  · intro la lo city
    rcases la with _ | q <;> rcases lo with _ | p <;> simp [ipwhoIsParse]
  · intro l city
    by_cases hc : l.contains ','
    · simp only [ipinfoParse, hc, if_true]
      rcases h1 : jsNumber ((l.splitOn ",").headD "") with _ | q <;>
        rcases h2 : jsNumber (((l.splitOn ",").drop 1).headD "") with _ | p <;>
        simp [h1, h2, hc]
    · simp [ipinfoParse, hc]

/- ---------------------------------------------------------------------
   PresenceHeartbeat: ServerCrowdCounter.sendHeartbeat
   (src/lib/serverCrowdCounter.ts)
--------------------------------------------------------------------- -/

structure Coords where
  lat : ℚ
  lng : ℚ
deriving DecidableEq

/-- `ServerCrowdState` from serverCrowdCounter.ts. -/
structure ServerCrowdState where
  nearbyCount : Int
  approximateCount : Int
  isActive : Bool
  locationServicesOff : Bool
  error : Option String
deriving DecidableEq

/-- The possible results of the `heartbeat_nearby` RPC: an error object, a
thrown network exception, or success with the returned `data` (`none`
models a non-number payload, which the code maps to 0). -/
inductive HeartbeatOutcome where
  | rpcError (message : String)
  | networkThrow
  | success (data : Option Int)
deriving DecidableEq

/-- `ServerCrowdCounter.sendHeartbeat` (lines 173–209): returns the state
after the call together with the success boolean.  The device hash and the
coordinate lookup result are passed explicitly; every failure path returns
`false` rather than throwing, which the total function models directly. -/
def sendHeartbeat (deviceHash : Option String) (coords : Option Coords)
    (outcome : HeartbeatOutcome) (st : ServerCrowdState) : ServerCrowdState × Bool :=
  match deviceHash with
  | none => (st, false)
  | some _ =>
    match coords with
    | none => (st, false)
    | some _ =>
      match outcome with
      | .rpcError _ => (st, false)
      | .networkThrow => (st, false)
      | .success data =>
        let rawCount := data.getD 0
        ({ nearbyCount := rawCount, approximateCount := approximateCount rawCount,
           isActive := true, locationServicesOff := false, error := none }, true)

def c9State : ServerCrowdState :=
  { nearbyCount := 5, approximateCount := 10, isActive := true,
    locationServicesOff := false, error := none }

/-- C9 counterexample: on an RPC error the claim requires `isActive` to be
set to false and the error to be recorded, but `sendHeartbeat` leaves the
prior state entirely untouched: `isActive` stays true and `error` stays
null. -/
theorem sendHeartbeat_counterexample :
    (sendHeartbeat (some "h") (some { lat := 35, lng := 51 })
      (HeartbeatOutcome.rpcError "boom") c9State).1.isActive = true ∧
    (sendHeartbeat (some "h") (some { lat := 35, lng := 51 })
      (HeartbeatOutcome.rpcError "boom") c9State).1.error = none := by decide

/-- C9 amended: on an RPC error or a thrown network exception,
`sendHeartbeat` leaves the whole prior `ServerCrowdState` intact —
`nearbyCount`, `approximateCount`, and also `isActive` and `error` — and
resolves to `false` instead of throwing. -/
theorem sendHeartbeat_failure_keeps_state :
    ∀ (deviceHash : Option String) (coords : Option Coords) (st : ServerCrowdState),
      (∀ message, sendHeartbeat deviceHash coords
        (HeartbeatOutcome.rpcError message) st = (st, false)) ∧
      sendHeartbeat deviceHash coords HeartbeatOutcome.networkThrow st = (st, false) := by
  intro dh c st
  constructor
  · intro m
    cases dh <;> cases c <;> rfl
  · cases dh <;> cases c <;> rfl
